import Mathlib

/-!
Verification development for the EFlex multi-agent cooperation environment
(EFlexMultiAgentCooperationV4.py). The device finite-state machines, the
piecewise time-series generators and the coordinator tick protocol are
embedded shallowly: every mutable Python object becomes an immutable record,
every mutating method becomes a function returning the updated record, and
Python floats become exact rationals. Names follow the source classes.
-/

attribute [local semireducible] Rat.add Rat.mul Rat.sub Rat.inv

/-- Module-wide production cap, MAX_PRODUCTION_STEP in the source. -/
def MAX_PRODUCTION_STEP : ℚ := 20

/-! ### State and transition enumerations (production devices) -/

/-- EFLEXAgentState enumeration of the source, with its explicit values. -/
inductive EFLEXAgentState where
  | Aborted
  | Stopped
  | PowerOff
  | LoadChange
  | StandBy
  | StartedUp
  | Idle
  | Execute
  | Completed
  | Held
  | Suspended
deriving DecidableEq, Repr

/-- The numeric value of each EFLEXAgentState member, as declared in the source. -/
def EFLEXAgentState.value : EFLEXAgentState → ℕ
  | .Aborted => 1
  | .Stopped => 0
  | .PowerOff => 2
  | .LoadChange => 3
  | .StandBy => 4
  | .StartedUp => 5
  | .Idle => 6
  | .Execute => 7
  | .Completed => 8
  | .Held => 9
  | .Suspended => 10

/-- EFLEXAgentTransition enumeration (the production-device action alphabet). -/
inductive EFLEXAgentTransition where
  | SC
  | Abort
  | Clear
  | Reset
  | Stop
  | ChangeLoad
  | Hold
  | PowerOn
  | PowerOff
  | Standby
  | Start
  | Suspend
  | UnHold
  | Unsuspend
deriving DecidableEq, Repr

/-- Decoding an integer action index into an EFLEXAgentTransition; out-of-range
indices fail, as the Python enum constructor raises. -/
def EFLEXAgentTransition.ofValue : ℕ → Option EFLEXAgentTransition
  | 0 => some .SC
  | 1 => some .Abort
  | 2 => some .Clear
  | 3 => some .Reset
  | 4 => some .Stop
  | 5 => some .ChangeLoad
  | 6 => some .Hold
  | 7 => some .PowerOn
  | 8 => some .PowerOff
  | 9 => some .Standby
  | 10 => some .Start
  | 11 => some .Suspend
  | 12 => some .UnHold
  | 13 => some .Unsuspend
  | _ => none

/-! ### Time-series generators -/

/-- TOUGenerator of the source: a piecewise-constant price signal. -/
structure TOUGenerator where
  steps : List ℕ
  values : List ℚ
  current_step : ℕ
  current_tou_value : ℚ
deriving DecidableEq, Repr

/-- The breakpoint scan inside TOUGenerator.step: walk the breakpoints in
order, adopting values i as long as the tick exceeds breakpoint i, and break
at the first breakpoint that is not exceeded. -/
def touScan (t : ℕ) : List ℕ → List ℚ → ℚ → ℚ
  | l :: ls, w :: ws, v => if t > l then touScan t ls ws w else v
  | _, _, v => v

/-- TOUGenerator.step: increment the tick, rescan the breakpoints. -/
def TOUGenerator.step (g : TOUGenerator) : TOUGenerator :=
  let t := g.current_step + 1
  { g with current_step := t
           current_tou_value := touScan t g.steps g.values g.current_tou_value }

/-- TOUGenerator.reset is a no-op in the source (the commented-out body). -/
def TOUGenerator.reset (g : TOUGenerator) : TOUGenerator := g

/-- LoadProfile of the source: the load-limit signal, scaled by the tolerance. -/
structure LoadProfile where
  steps : List ℕ
  values : List ℚ
  tolerance_factor : ℚ
  current_step : ℕ
  current_max_load : ℚ
deriving DecidableEq, Repr

/-- The breakpoint scan inside LoadProfile.step; each adopted value is scaled
by (1 + tolerance_factor) as in the source. -/
def loadScan (t : ℕ) (tol : ℚ) : List ℕ → List ℚ → ℚ → ℚ
  | l :: ls, w :: ws, v => if t > l then loadScan t tol ls ws (w * (1 + tol)) else v
  | _, _, v => v

/-- LoadProfile.step: increment the tick, rescan the breakpoints. -/
def LoadProfile.step (p : LoadProfile) : LoadProfile :=
  let t := p.current_step + 1
  { p with current_step := t
           current_max_load := loadScan t p.tolerance_factor p.steps p.values p.current_max_load }

/-- LoadProfile.reset is a no-op in the source. -/
def LoadProfile.reset (p : LoadProfile) : LoadProfile := p

/-! ### Production device (EFlexAgent base class) -/

/-- The mutable state of an EFlexAgent production device. production_count is a
Python float (initialised to 0.0 and incremented by 1), kept as a rational. -/
structure EFlexAgent where
  p_min : ℚ
  p_max : ℚ
  p_slope : ℚ
  current_state : EFLEXAgentState
  current_reward : ℚ
  currentStep : ℕ
  startStep : ℕ
  production_count : ℚ
  max_allowed_power : ℚ
deriving DecidableEq, Repr

/-- EFlexAgent._take_action: the exhaustive transition chain of the source.
The LoadChange state has no branch in the source, so nothing is updated there.
-/
def EFlexAgent.takeAction (a : EFlexAgent) (act : EFLEXAgentTransition) : EFlexAgent :=
  match a.current_state with
  | .Aborted =>
    let a := { a with startStep := a.currentStep }
    if act = .Clear then { a with current_state := .Stopped, current_reward := 1 }
    else { a with current_state := .Aborted, current_reward := 0 }
  | .Stopped =>
    let a := { a with startStep := a.currentStep }
    if act = .Abort then { a with current_state := .Aborted, current_reward := -(1/10) }
    else if act = .Reset then { a with current_state := .Idle, current_reward := 1/10 }
    else { a with current_state := .Stopped, current_reward := 0 }
  | .Idle =>
    if act = .Abort then { a with current_state := .Aborted, current_reward := -(1/10) }
    else if act = .Start then
      { a with startStep := a.currentStep, current_state := .Execute, current_reward := 1 }
    else if act = .PowerOff then { a with current_state := .PowerOff, current_reward := 0 }
    else if act = .Standby then { a with current_state := .StandBy, current_reward := 0 }
    else if act = .Stop then { a with current_state := .Stopped, current_reward := 0 }
    else if act = .ChangeLoad then { a with current_state := .Idle, current_reward := 1/10 }
    else { a with current_state := .Idle, current_reward := 0 }
  | .PowerOff =>
    let a := { a with startStep := a.currentStep }
    if act = .Abort then { a with current_state := .Aborted, current_reward := -(1/10) }
    else if act = .PowerOn then { a with current_state := .StartedUp, current_reward := 0 }
    else if act = .Stop then { a with current_state := .Stopped, current_reward := 0 }
    else { a with current_state := .PowerOff, current_reward := 0 }
  | .StandBy =>
    let a := { a with startStep := a.currentStep }
    if act = .Abort then { a with current_state := .Aborted, current_reward := -(1/10) }
    else if act = .PowerOn then { a with current_state := .StartedUp, current_reward := 1/10 }
    else if act = .Stop then { a with current_state := .Stopped, current_reward := 0 }
    else { a with current_state := .StandBy, current_reward := 0 }
  | .StartedUp =>
    if act = .Abort then { a with current_state := .Aborted, current_reward := -(1/10) }
    else if act = .Reset then { a with current_state := .Idle, current_reward := 3/10 }
    else if act = .Stop then { a with current_state := .Stopped, current_reward := 0 }
    else { a with current_state := .StartedUp, current_reward := 0 }
  | .Execute =>
    if act = .Abort then { a with current_state := .Aborted, current_reward := -(1/10) }
    else if act = .SC then
      { a with current_state := .Completed, current_reward := 1,
               production_count := a.production_count + 1 }
    else if act = .Hold then { a with current_state := .Held, current_reward := 0 }
    else if act = .Suspend then { a with current_state := .Suspended, current_reward := 0 }
    else if act = .Stop then { a with current_state := .Stopped, current_reward := 0 }
    else if act = .ChangeLoad then { a with current_state := .Execute, current_reward := 0 }
    else { a with current_state := .Execute, current_reward := 0 }
  | .Completed =>
    if act = .Abort then { a with current_state := .Aborted, current_reward := -(1/10) }
    else if act = .SC then { a with current_state := .Idle, current_reward := 1 }
    else if act = .Stop then { a with current_state := .Stopped, current_reward := 0 }
    else { a with current_state := .Completed, current_reward := 0 }
  | .Held =>
    if act = .Abort then { a with current_state := .Aborted, current_reward := -(1/10) }
    else if act = .UnHold then { a with current_state := .Execute, current_reward := 1/10 }
    else if act = .Suspend then { a with current_state := .Suspended, current_reward := 0 }
    else if act = .Stop then { a with current_state := .Stopped, current_reward := 0 }
    else if act = .ChangeLoad then { a with current_state := .Held, current_reward := 0 }
    else { a with current_state := .Held, current_reward := 0 }
  | .Suspended =>
    if act = .Abort then { a with current_state := .Aborted, current_reward := -(1/10) }
    else if act = .Unsuspend then { a with current_state := .Execute, current_reward := 1/10 }
    else if act = .Hold then { a with current_state := .Held, current_reward := 0 }
    else if act = .Stop then { a with current_state := .Stopped, current_reward := 0 }
    else if act = .ChangeLoad then { a with current_state := .Suspended, current_reward := 0 }
    else { a with current_state := .Suspended, current_reward := 0 }
  | .LoadChange => a

/-- EFlexAgent.reset of the source. -/
def EFlexAgent.reset (a : EFlexAgent) : EFlexAgent :=
  { a with current_state := .Stopped, current_reward := 0, currentStep := 0,
           startStep := 0, production_count := 0 }

/-- EFlexAgent._get_done: Aborted, or the production cap reached. -/
def EFlexAgent.getDone (a : EFlexAgent) : Bool :=
  decide (a.current_state = .Aborted) || decide (a.production_count ≥ MAX_PRODUCTION_STEP)

/-- EFlexAgentPConstant.current_power. -/
def EFlexAgentPConstant.currentPower (a : EFlexAgent) : ℚ :=
  match a.current_state with
  | .Aborted | .Stopped => 0
  | .Execute | .Completed => a.p_max
  | _ => a.p_min

/-- EFlexAgentPLinear.current_power: a linear ramp from the start of the
current active phase, clamped at p_max. The step counters are Python ints, so
the delta is computed in ℤ. -/
def EFlexAgentPLinear.currentPower (a : EFlexAgent) : ℚ :=
  match a.current_state with
  | .Aborted | .Stopped => 0
  | .Execute | .Completed =>
    let delta : ℤ := (a.currentStep : ℤ) - (a.startStep : ℤ)
    let c_power := a.p_min + (delta : ℚ) * a.p_slope
    if c_power > a.p_max then a.p_max else c_power
  | _ => a.p_min

/-! ### Observation vectors -/

/-- One entry of an observation vector: the source zeroes the vector, writes
1.0 at the current state value and finally writes the power fraction into the
last slot, so the last write wins at the final index. -/
def obsEntry (n stateVal : ℕ) (pw maxP : ℚ) (k : ℕ) : ℚ :=
  if k = n + 1 then pw / maxP else if k = stateVal then 1 else 0

/-- An observation vector of length n + 2 where n is the number of states. -/
def mkObs (n stateVal : ℕ) (pw maxP : ℚ) : List ℚ :=
  (List.range (n + 2)).map (obsEntry n stateVal pw maxP)

/-- EFlexAgent._get_obs, with the power supplied by the concrete subclass. -/
def EFlexAgent.getObs (a : EFlexAgent) (pw : ℚ) : List ℚ :=
  mkObs 11 a.current_state.value pw a.max_allowed_power

/-- EFlexAgent.step for a given subclass power function: take the action, read
reward, observation and done, then advance the tick counter. -/
def EFlexAgent.step (a : EFlexAgent) (pow : EFlexAgent → ℚ) (act : EFLEXAgentTransition) :
    EFlexAgent × List ℚ × ℚ × Bool :=
  let a1 := a.takeAction act
  ({ a1 with currentStep := a1.currentStep + 1 },
   a1.getObs (pow a1), a1.current_reward, a1.getDone)

/-! ### Energy storage device -/

/-- EFLEXEnergyStorageAgentState enumeration with its explicit values. -/
inductive EFLEXEnergyStorageAgentState where
  | Aborted
  | Stopped
  | Charging
  | Discharging
deriving DecidableEq, Repr

/-- The numeric value of each storage state, as declared in the source. -/
def EFLEXEnergyStorageAgentState.value : EFLEXEnergyStorageAgentState → ℕ
  | .Aborted => 1
  | .Stopped => 0
  | .Charging => 2
  | .Discharging => 3

/-- EFLEXEnergyStorageAgentTransition enumeration. -/
inductive EFLEXEnergyStorageAgentTransition where
  | SC
  | Abort
  | Clear
  | Charge
  | Stop
  | Discharge
deriving DecidableEq, Repr

/-- Decode an integer action index for the storage device. -/
def EFLEXEnergyStorageAgentTransition.ofValue : ℕ → Option EFLEXEnergyStorageAgentTransition
  | 0 => some .SC
  | 1 => some .Abort
  | 2 => some .Clear
  | 3 => some .Charge
  | 4 => some .Stop
  | 5 => some .Discharge
  | _ => none

/-- The mutable state of an EFlexEnergyStorageAgent. -/
structure EFlexEnergyStorageAgent where
  p_min : ℚ
  p_max : ℚ
  p_slope : ℚ
  current_state : EFLEXEnergyStorageAgentState
  current_reward : ℚ
  currentStep : ℕ
  startStep : ℕ
  charging_level : ℚ
  max_allowed_power : ℚ
deriving DecidableEq, Repr

/-- The quadratic efficiency reward of the storage device, evaluated at the
charging level stored in the agent. -/
def storageQuadReward (s : EFlexEnergyStorageAgent) : ℚ :=
  1/2 * (1 - ((s.p_max - s.charging_level) ^ 2 / s.p_max ^ 2))

/-- EFlexEnergyStorageAgent._take_action. In the Charging and Discharging
branches the charging level is updated after the transition chain, regardless
of which action was taken, and clamped at p_max respectively p_min. -/
def EFlexEnergyStorageAgent.takeAction (s : EFlexEnergyStorageAgent)
    (act : EFLEXEnergyStorageAgentTransition) : EFlexEnergyStorageAgent :=
  match s.current_state with
  | .Aborted =>
    let s := { s with startStep := s.currentStep }
    if act = .Clear then { s with current_state := .Stopped, current_reward := 1 }
    else { s with current_state := .Aborted, current_reward := 0 }
  | .Stopped =>
    let s := { s with startStep := s.currentStep }
    if act = .Abort then { s with current_state := .Aborted, current_reward := -(1/10) }
    else if act = .Charge then { s with current_state := .Charging, current_reward := 1/10 }
    else if act = .Discharge then { s with current_state := .Discharging, current_reward := 1/10 }
    else { s with current_state := .Stopped, current_reward := 0 }
  | .Charging =>
    let s1 :=
      if act = .Abort then { s with current_state := .Aborted, current_reward := -(1/10) }
      else if act = .Stop then { s with current_state := .Stopped, current_reward := 0 }
      else if act = .Discharge then
        { s with current_state := .Discharging, current_reward := storageQuadReward s }
      else { s with current_state := .Charging, current_reward := storageQuadReward s }
    let lvl := s1.charging_level + s1.p_slope
    { s1 with charging_level := if lvl > s1.p_max then s1.p_max else lvl }
  | .Discharging =>
    let s1 :=
      if act = .Abort then { s with current_state := .Aborted, current_reward := -(1/10) }
      else if act = .Stop then { s with current_state := .Stopped, current_reward := 0 }
      else if act = .Charge then
        { s with current_state := .Charging, current_reward := storageQuadReward s }
      else { s with current_state := .Discharging, current_reward := storageQuadReward s }
    let lvl := s1.charging_level - s1.p_slope
    { s1 with charging_level := if lvl < s1.p_min then s1.p_min else lvl }

/-- EFlexEnergyStorageAgent.reset of the source. The charging level is not
touched by reset. -/
def EFlexEnergyStorageAgent.reset (s : EFlexEnergyStorageAgent) : EFlexEnergyStorageAgent :=
  { s with current_state := .Stopped, current_reward := 0, currentStep := 0, startStep := 0 }

/-- EFlexEnergyStorageAgent.current_power. -/
def EFlexEnergyStorageAgent.currentPower (s : EFlexEnergyStorageAgent) : ℚ :=
  match s.current_state with
  | .Aborted | .Stopped => 0
  | .Charging => if s.charging_level < s.p_max then (s.p_max - s.p_min) / 2 else 0
  | .Discharging => if s.charging_level > s.p_min then -((s.p_max - s.p_min) / 2) else 0

/-- EFlexEnergyStorageAgent._get_obs. -/
def EFlexEnergyStorageAgent.getObs (s : EFlexEnergyStorageAgent) : List ℚ :=
  mkObs 4 s.current_state.value s.currentPower s.max_allowed_power

/-- EFlexEnergyStorageAgent.step. -/
def EFlexEnergyStorageAgent.step (s : EFlexEnergyStorageAgent)
    (act : EFLEXEnergyStorageAgentTransition) :
    EFlexEnergyStorageAgent × List ℚ × ℚ × Bool :=
  let s1 := s.takeAction act
  ({ s1 with currentStep := s1.currentStep + 1 },
   s1.getObs, s1.current_reward, decide (s1.current_state = .Aborted))

/-! ### Energy generator device -/

/-- EFLEXEnergyGeneratorAgentState enumeration with its explicit values. -/
inductive EFLEXEnergyGeneratorAgentState where
  | Aborted
  | Stopped
  | Generating
deriving DecidableEq, Repr

/-- The numeric value of each generator state, as declared in the source. -/
def EFLEXEnergyGeneratorAgentState.value : EFLEXEnergyGeneratorAgentState → ℕ
  | .Aborted => 1
  | .Stopped => 0
  | .Generating => 2

/-- EFLEXEnergyGeneratorAgentTransition enumeration. -/
inductive EFLEXEnergyGeneratorAgentTransition where
  | SC
  | Abort
  | Clear
  | Generate
  | Stop
deriving DecidableEq, Repr

/-- Decode an integer action index for the generator device. -/
def EFLEXEnergyGeneratorAgentTransition.ofValue : ℕ → Option EFLEXEnergyGeneratorAgentTransition
  | 0 => some .SC
  | 1 => some .Abort
  | 2 => some .Clear
  | 3 => some .Generate
  | 4 => some .Stop
  | _ => none

/-- The mutable state of an EFLEXEnergyGeneratorAgent. -/
structure EFLEXEnergyGeneratorAgent where
  p_min : ℚ
  p_max : ℚ
  p_slope : ℚ
  current_state : EFLEXEnergyGeneratorAgentState
  current_reward : ℚ
  currentStep : ℕ
  startStep : ℕ
  last_power : ℚ
  max_allowed_power : ℚ
deriving DecidableEq, Repr

/-- EFLEXEnergyGeneratorAgent.current_power: a ramp on last_power, capped at
p_max, exported as a negative value. -/
def EFLEXEnergyGeneratorAgent.currentPower (g : EFLEXEnergyGeneratorAgent) : ℚ :=
  match g.current_state with
  | .Aborted | .Stopped => 0
  | .Generating =>
    let c_power := g.last_power + g.p_slope
    if c_power > g.p_max then -g.p_max else -c_power

/-- EFLEXEnergyGeneratorAgent._take_action. In the Generating self-loop the
reward reads current_power before last_power is advanced. -/
def EFLEXEnergyGeneratorAgent.takeAction (g : EFLEXEnergyGeneratorAgent)
    (act : EFLEXEnergyGeneratorAgentTransition) : EFLEXEnergyGeneratorAgent :=
  match g.current_state with
  | .Aborted =>
    let g := { g with startStep := g.currentStep }
    if act = .Clear then { g with current_state := .Stopped, current_reward := 1 }
    else { g with current_state := .Aborted, current_reward := 0 }
  | .Stopped =>
    let g := { g with startStep := g.currentStep }
    if act = .Abort then { g with current_state := .Aborted, current_reward := -(1/10) }
    else if act = .Generate then { g with current_state := .Generating, current_reward := 1/10 }
    else { g with current_state := .Stopped, current_reward := 0 }
  | .Generating =>
    if act = .Abort then { g with current_state := .Aborted, current_reward := -(1/10) }
    else if act = .Stop then { g with current_state := .Stopped, current_reward := 0 }
    else
      let g1 := { g with current_state := .Generating }
      { g1 with current_reward := 1/5 * |g1.currentPower / g1.p_max| }

/-- EFLEXEnergyGeneratorAgent.reset of the source. last_power is not touched. -/
def EFLEXEnergyGeneratorAgent.reset (g : EFLEXEnergyGeneratorAgent) : EFLEXEnergyGeneratorAgent :=
  { g with current_state := .Stopped, current_reward := 0, currentStep := 0, startStep := 0 }

/-- EFLEXEnergyGeneratorAgent._get_obs. -/
def EFLEXEnergyGeneratorAgent.getObs (g : EFLEXEnergyGeneratorAgent) : List ℚ :=
  mkObs 3 g.current_state.value g.currentPower g.max_allowed_power

/-- EFLEXEnergyGeneratorAgent.step: after the tick advance, last_power is set
to the absolute value of the post-transition current_power. -/
def EFLEXEnergyGeneratorAgent.step (g : EFLEXEnergyGeneratorAgent)
    (act : EFLEXEnergyGeneratorAgentTransition) :
    EFLEXEnergyGeneratorAgent × List ℚ × ℚ × Bool :=
  let g1 := g.takeAction act
  let g2 := { g1 with currentStep := g1.currentStep + 1 }
  ({ g2 with last_power := |g2.currentPower| },
   g1.getObs, g1.current_reward, decide (g1.current_state = .Aborted))

/-! ### Main grid device -/

/-- EFLEXEnergyMainGridAgentState enumeration; the values are non-contiguous
in the source: 0, 1, 2, 4. -/
inductive EFLEXEnergyMainGridAgentState where
  | Aborted
  | Stopped
  | Buying
  | Selling
deriving DecidableEq, Repr

/-- The numeric value of each main-grid state, as declared in the source. -/
def EFLEXEnergyMainGridAgentState.value : EFLEXEnergyMainGridAgentState → ℕ
  | .Aborted => 0
  | .Stopped => 1
  | .Buying => 2
  | .Selling => 4

/-- EFLEXEnergyMainGridAgentTransition enumeration. -/
inductive EFLEXEnergyMainGridAgentTransition where
  | SC
  | Abort
  | Clear
  | Stop
  | Buy
  | Sell
deriving DecidableEq, Repr

/-- Decode an integer action index for the main-grid device. -/
def EFLEXEnergyMainGridAgentTransition.ofValue : ℕ → Option EFLEXEnergyMainGridAgentTransition
  | 0 => some .SC
  | 1 => some .Abort
  | 2 => some .Clear
  | 3 => some .Stop
  | 4 => some .Buy
  | 5 => some .Sell
  | _ => none

/-- The mutable state of an EFLEXEnergyMainGridAgent. -/
structure EFLEXEnergyMainGridAgent where
  p_min : ℚ
  p_max : ℚ
  p_slope : ℚ
  current_state : EFLEXEnergyMainGridAgentState
  current_reward : ℚ
  currentStep : ℕ
  startStep : ℕ
  last_power : ℚ
  max_allowed_power : ℚ
deriving DecidableEq, Repr

/-- EFLEXEnergyMainGridAgent._take_action. In Aborted, the Clear branch is a
pass in the source (commented-out recovery), so only startStep is written and
current_reward keeps its previous value. -/
def EFLEXEnergyMainGridAgent.takeAction (g : EFLEXEnergyMainGridAgent)
    (act : EFLEXEnergyMainGridAgentTransition) : EFLEXEnergyMainGridAgent :=
  match g.current_state with
  | .Aborted =>
    let g := { g with startStep := g.currentStep }
    if act = .Clear then g
    else { g with current_state := .Aborted, current_reward := 0 }
  | .Stopped =>
    let g := { g with startStep := g.currentStep }
    if act = .Abort then { g with current_state := .Aborted, current_reward := -(1/10) }
    else if act = .Buy then { g with current_state := .Buying, current_reward := 1/100 }
    else if act = .Sell then { g with current_state := .Selling, current_reward := 1/100 }
    else { g with current_state := .Stopped, current_reward := 0 }
  | .Buying =>
    if act = .Abort then { g with current_state := .Aborted, current_reward := -(1/10) }
    else if act = .Stop then { g with current_state := .Stopped, current_reward := -(1/100) }
    else if act = .Sell then { g with current_state := .Selling, current_reward := 0 }
    else { g with current_state := .Buying, current_reward := -(1/100) }
  | .Selling =>
    if act = .Abort then { g with current_state := .Aborted, current_reward := -(1/10) }
    else if act = .Stop then { g with current_state := .Stopped, current_reward := -(1/100) }
    else if act = .Buy then { g with current_state := .Buying, current_reward := 0 }
    else { g with current_state := .Selling, current_reward := 1/100 }

/-- EFLEXEnergyMainGridAgent.reset of the source. last_power is not touched. -/
def EFLEXEnergyMainGridAgent.reset (g : EFLEXEnergyMainGridAgent) : EFLEXEnergyMainGridAgent :=
  { g with current_state := .Stopped, current_reward := 0, currentStep := 0, startStep := 0 }

/-- EFLEXEnergyMainGridAgent.current_power. -/
def EFLEXEnergyMainGridAgent.currentPower (g : EFLEXEnergyMainGridAgent) : ℚ :=
  match g.current_state with
  | .Aborted | .Stopped => 0
  | .Buying => -g.p_max
  | .Selling => g.p_max

/-- EFLEXEnergyMainGridAgent._get_obs. -/
def EFLEXEnergyMainGridAgent.getObs (g : EFLEXEnergyMainGridAgent) : List ℚ :=
  mkObs 4 g.current_state.value g.currentPower g.max_allowed_power

/-- EFLEXEnergyMainGridAgent.step: after the tick advance, last_power is set
to the post-transition current_power (without absolute value). -/
def EFLEXEnergyMainGridAgent.step (g : EFLEXEnergyMainGridAgent)
    (act : EFLEXEnergyMainGridAgentTransition) :
    EFLEXEnergyMainGridAgent × List ℚ × ℚ × Bool :=
  let g1 := g.takeAction act
  let g2 := { g1 with currentStep := g1.currentStep + 1 }
  ({ g2 with last_power := g2.currentPower },
   g1.getObs, g1.current_reward, decide (g1.current_state = .Aborted))

/-! ### The device union and the coordinator -/

/-- A registered device: the closed set of agent classes the coordinator can
hold. The logistic producer is omitted because its power curve uses the real
exponential and none of the verified properties concern it; the remaining
kinds cover the coordinator logic, which is uniform in the device kind. -/
inductive Device where
  | pConstant : EFlexAgent → Device
  | pLinear : EFlexAgent → Device
  | storage : EFlexEnergyStorageAgent → Device
  | generator : EFLEXEnergyGeneratorAgent → Device
  | mainGrid : EFLEXEnergyMainGridAgent → Device
deriving DecidableEq, Repr

/-- The per-device result collected by the coordinator loop body for one
agent: the updated device, the observation, the (blended) reward appended to
reward_n, the done flag, the power read back after the step, whether the index
is appended to the winner list, and whether a production bonus fired. -/
structure AgentOut where
  dev : Device
  ob : List ℚ
  reward : ℚ
  done : Bool
  power : ℚ
  winner : Bool
  bonus : Bool
deriving DecidableEq, Repr

/-- The coordinator loop body for a production device: step the agent, blend
the state reward with the production bonus (1.0 exactly when the transition
was Execute to Completed), write the blend back into the agent, read the
post-step power and check the production cap. -/
def prodAdvance (wrap : EFlexAgent → Device) (pow : EFlexAgent → ℚ)
    (a : EFlexAgent) (act : EFLEXAgentTransition) : AgentOut :=
  let r := a.step pow act
  let a2 := r.1
  let hit := (a2.current_state.value == EFLEXAgentState.Completed.value)
    && (a.current_state.value == EFLEXAgentState.Execute.value)
  let blend := 1/2 * r.2.2.1 + 1/2 * (if hit then (1 : ℚ) else 0)
  let a3 := { a2 with current_reward := blend }
  { dev := wrap a3, ob := r.2.1, reward := blend, done := r.2.2.2, power := pow a3,
    winner := decide (a3.production_count ≥ MAX_PRODUCTION_STEP), bonus := hit }

/-- The coordinator loop body for one device: decode the integer action for
the device kind and run its step; non-production devices pass their state
reward through unblended and never enter the winner list. -/
def Device.advance (d : Device) (act : ℕ) : Option AgentOut :=
  match d with
  | .pConstant a =>
    (EFLEXAgentTransition.ofValue act).map
      (prodAdvance Device.pConstant EFlexAgentPConstant.currentPower a)
  | .pLinear a =>
    (EFLEXAgentTransition.ofValue act).map
      (prodAdvance Device.pLinear EFlexAgentPLinear.currentPower a)
  | .storage s =>
    (EFLEXEnergyStorageAgentTransition.ofValue act).map fun t =>
      let r := s.step t
      { dev := .storage r.1, ob := r.2.1, reward := r.2.2.1, done := r.2.2.2,
        power := r.1.currentPower, winner := false, bonus := false }
  | .generator g =>
    (EFLEXEnergyGeneratorAgentTransition.ofValue act).map fun t =>
      let r := g.step t
      { dev := .generator r.1, ob := r.2.1, reward := r.2.2.1, done := r.2.2.2,
        power := r.1.currentPower, winner := false, bonus := false }
  | .mainGrid g =>
    (EFLEXEnergyMainGridAgentTransition.ofValue act).map fun t =>
      let r := g.step t
      { dev := .mainGrid r.1, ob := r.2.1, reward := r.2.2.1, done := r.2.2.2,
        power := r.1.currentPower, winner := false, bonus := false }

/-- Reset a device, dispatching on its kind. -/
def Device.reset (d : Device) : Device :=
  match d with
  | .pConstant a => .pConstant a.reset
  | .pLinear a => .pLinear a.reset
  | .storage s => .storage s.reset
  | .generator g => .generator g.reset
  | .mainGrid g => .mainGrid g.reset

/-- Whether a device is appended to the winner list when checked after its
step: only production devices with the cap reached. -/
def Device.isWinner (d : Device) : Bool :=
  match d with
  | .pConstant a => decide (a.production_count ≥ MAX_PRODUCTION_STEP)
  | .pLinear a => decide (a.production_count ≥ MAX_PRODUCTION_STEP)
  | _ => false

/-- The lists accumulated by the per-agent loop of the coordinator step:
updated devices, observations, rewards, done flags, powers, winner-list
appends (absolute device indices) and the production counter. -/
structure MidRes where
  devs : List Device
  obs : List (List ℚ)
  rewards : List ℚ
  dones : List Bool
  powers : List ℚ
  winners : List ℕ
  production : ℕ
deriving DecidableEq, Repr

/-- The per-agent loop of the coordinator step, starting at device index i.
Decoding failure of any action aborts the call, as the Python enum constructor
raises; a missing action (shorter action list) is an index error. -/
def phase1 : ℕ → List Device → List ℕ → Option MidRes
  | _, [], _ => some ⟨[], [], [], [], [], [], 0⟩
  | _, _ :: _, [] => none
  | i, d :: ds, act :: acts =>
    match d.advance act with
    | none => none
    | some o =>
      match phase1 (i + 1) ds acts with
      | none => none
      | some m =>
        some ⟨o.dev :: m.devs, o.ob :: m.obs, o.reward :: m.rewards, o.done :: m.dones,
              o.power :: m.powers, (if o.winner then [i] else []) ++ m.winners,
              (if o.bonus then 1 else 0) + m.production⟩

/-- The coordinator environment EFlexMultiAgentCooperationClsV4. -/
structure EFlexMultiAgentCooperationClsV4 where
  agents : List Device
  shared_reward : Bool
  max_allowed_power : ℚ
  energy_cost_budget : ℚ
  current_system_power : ℚ
  global_reward : ℚ
  current_winner : List ℕ
  tou_generator : TOUGenerator
  load_profile : LoadProfile
deriving DecidableEq, Repr

/-- Short name for the coordinator environment. -/
abbrev Env := EFlexMultiAgentCooperationClsV4

/-- The reward vector after the cooperative broadcast and before the budget
check: under shared_reward every slot receives the sum of the individual
rewards, otherwise the individual rewards pass through. -/
def sharedStage (e : Env) (m : MidRes) : List ℚ :=
  if e.shared_reward then List.replicate e.agents.length m.rewards.sum else m.rewards

/-- The system power accumulated by a coordinator step, read off the per-agent
loop; 0 when the loop fails. -/
def phase1SysPower (e : Env) (acts : List ℕ) : ℚ :=
  (((phase1 0 e.agents acts).map fun m => m.powers.sum)).getD 0

/-- EFlexMultiAgentCooperationClsV4.step: advance both generators, run the
per-agent loop, broadcast under shared reward, then apply the budget check
(subtract 0.5 everywhere and force done) and store the diagnostics. Returns
the new environment, the observations, the reward vector and the episode done
flag. -/
def EFlexMultiAgentCooperationClsV4.step (e : Env) (acts : List ℕ) :
    Option (Env × List (List ℚ) × List ℚ × Bool) :=
  let tou1 := e.tou_generator.step
  let load1 := e.load_profile.step
  let price := tou1.current_tou_value
  match phase1 0 e.agents acts with
  | none => none
  | some m =>
    let rewards1 := sharedStage e m
    let done0 := m.dones.any fun b => b
    let sysP := m.powers.sum
    let rewards2 := if sysP * price > e.energy_cost_budget
      then rewards1.map fun r => r - 1/2 else rewards1
    let done1 := if sysP * price > e.energy_cost_budget then true else done0
    let e1 : Env :=
      { e with agents := m.devs, tou_generator := tou1, load_profile := load1,
               current_system_power := sysP,
               current_winner := e.current_winner ++ m.winners,
               global_reward := rewards2.sum / (rewards2.length : ℚ) }
    some (e1, m.obs, rewards2, done1)

/-- EFlexMultiAgentCooperationClsV4.reset: reset every agent and clear the
episode diagnostics; both generators keep their clocks (their reset is a
no-op). -/
def EFlexMultiAgentCooperationClsV4.reset (e : Env) : Env :=
  { e with agents := e.agents.map Device.reset, current_winner := [],
           global_reward := 0, current_system_power := 0,
           tou_generator := e.tou_generator.reset,
           load_profile := e.load_profile.reset }

/-- Run a sequence of coordinator steps, stopping on failure. -/
def runEnv : Env → List (List ℕ) → Option Env
  | e, [] => some e
  | e, acts :: rest =>
    match e.step acts with
    | none => none
    | some r => runEnv r.1 rest

/-- The device indices (counting from i) appended to the winner list during
one coordinator tick, read off the post-step devices. -/
def tickWinners : ℕ → List Device → List ℕ
  | _, [] => []
  | i, d :: ds => (if d.isWinner then [i] else []) ++ tickWinners (i + 1) ds

/-! ### Reference definitions used to state the verified properties -/

/-- The value associated with the last breakpoint strictly below tick t, or
the running value v when no breakpoint lies strictly below t. This is the
declarative reading of what the breakpoint scan computes on sorted
breakpoints. -/
def valueAtTick (t : ℕ) (steps : List ℕ) (values : List ℚ) (v : ℚ) : ℚ :=
  ((((steps.zip values).filter fun p => decide (p.1 < t)).getLast?).map Prod.snd).getD v

/-- Modelled from the spec: the value associated with the first breakpoint
strictly greater than the tick counter, the last value once every breakpoint
is passed. Stated only to compare the spec sentence against the source
behaviour. -/
def specFirstGreaterValue (t : ℕ) : List ℕ → List ℚ → ℚ → ℚ
  | l :: ls, w :: ws, dflt => if l > t then w else specFirstGreaterValue t ls ws dflt
  | _, _, dflt => dflt

/-! ### Concrete fixtures -/

/-- A freshly constructed storage device with the parameters of the spec
storage test: p_min 0, p_max 100, p_slope 25, charging level 0, Stopped. -/
def storageFresh : EFlexEnergyStorageAgent :=
  { p_min := 0, p_max := 100, p_slope := 25, current_state := .Stopped, current_reward := 0,
    currentStep := 0, startStep := 0, charging_level := 0, max_allowed_power := 100 }

/-- The storage device after one Charge step. -/
def storageCharge1 : EFlexEnergyStorageAgent := (storageFresh.step .Charge).1

/-- The storage device after two Charge steps. -/
def storageCharge2 : EFlexEnergyStorageAgent := (storageCharge1.step .Charge).1

/-- The storage device after three Charge steps. -/
def storageCharge3 : EFlexEnergyStorageAgent := (storageCharge2.step .Charge).1

/-- The storage device after four Charge steps. -/
def storageCharge4 : EFlexEnergyStorageAgent := (storageCharge3.step .Charge).1

/-- A production device stuck in the unreachable LoadChange state. -/
def prodLoadChange : EFlexAgent :=
  { p_min := 0, p_max := 30, p_slope := 0, current_state := .LoadChange, current_reward := 0,
    currentStep := 0, startStep := 0, production_count := 0, max_allowed_power := 100 }

/-- A freshly constructed main-grid device. -/
def gridFresh : EFLEXEnergyMainGridAgent :=
  { p_min := 0, p_max := 10, p_slope := 0, current_state := .Stopped, current_reward := 0,
    currentStep := 0, startStep := 0, last_power := 0, max_allowed_power := 100 }

/-- A main-grid device in the Selling state. -/
def gridSelling : EFLEXEnergyMainGridAgent :=
  { gridFresh with current_state := .Selling }

/-- A main-grid device in the Aborted state carrying the abort reward. -/
def gridAborted : EFLEXEnergyMainGridAgent :=
  { gridFresh with current_state := .Aborted, current_reward := -(1/10) }

/-- A TOU generator with two breakpoints, used for the generator claims. -/
def touTwo : TOUGenerator :=
  { steps := [2, 5], values := [10, 20], current_step := 0, current_tou_value := 10 }

/-- A load profile with two breakpoints and tolerance 1/10. -/
def loadTwo : LoadProfile :=
  { steps := [2, 5], values := [10, 20], tolerance_factor := 1/10, current_step := 0,
    current_max_load := 11 }

/-- A trivial constant-price TOU generator. -/
def touUnit : TOUGenerator :=
  { steps := [], values := [1], current_step := 0, current_tou_value := 1 }

/-- A trivial constant load profile. -/
def loadUnit : LoadProfile :=
  { steps := [], values := [1], tolerance_factor := 0, current_step := 0, current_max_load := 1 }

/-- A constant-power production device sitting in Execute with p_max 30. -/
def prodExecute30 : EFlexAgent :=
  { p_min := 0, p_max := 30, p_slope := 0, current_state := .Execute, current_reward := 0,
    currentStep := 0, startStep := 0, production_count := 0, max_allowed_power := 100 }

/-- A freshly constructed constant-power production device. -/
def prodFresh : EFlexAgent :=
  { prodExecute30 with current_state := .Stopped }

/-- The coordinator of the spec budget test: two devices drawing 30 each,
budget 50, price 1. -/
def envBudget : Env :=
  { agents := [.pConstant prodExecute30, .pConstant prodExecute30], shared_reward := false,
    max_allowed_power := 100, energy_cost_budget := 50, current_system_power := 0,
    global_reward := 0, current_winner := [], tou_generator := touUnit,
    load_profile := loadUnit }

/-- The same coordinator in shared-reward mode with a large budget. -/
def envShared : Env :=
  { envBudget with shared_reward := true, energy_cost_budget := 1000000 }

/-- A one-device coordinator with a large budget, used for the winner-list
claims. -/
def envWinners : Env :=
  { agents := [.pConstant prodFresh], shared_reward := false, max_allowed_power := 100,
    energy_cost_budget := 1000000, current_system_power := 0, global_reward := 0,
    current_winner := [], tou_generator := touUnit, load_profile := loadUnit }

/-- A one-device coordinator whose production device already reached the cap. -/
def envCapped : Env :=
  { envWinners with agents := [.pConstant { prodExecute30 with production_count := 20 }] }

/-- An action script of 61 ticks driving the single production device of
envWinners through twenty full production cycles and one further tick. -/
def winnersScript : List (List ℕ) :=
  ([3, 10, 0] ++ (List.replicate 19 [0, 10, 0]).flatten ++ [0]).map fun a => [a]

/-- A production device sitting in Aborted. -/
def prodAborted : EFlexAgent :=
  { prodExecute30 with current_state := .Aborted }

/-! ### Helper lemmas -/

/-- The upper clamp of the source (overwrite with the bound when exceeded)
computes the minimum. -/
theorem clampHigh_eq_min (x b : ℚ) : (if x > b then b else x) = min x b := by
  rcases le_or_lt x b with h | h
  · rw [if_neg (not_lt.mpr h), min_eq_left h]
  · rw [if_pos h, min_eq_right h.le]

/-- The lower clamp of the source computes the maximum. -/
theorem clampLow_eq_max (x b : ℚ) : (if x < b then b else x) = max x b := by
  rcases le_or_lt b x with h | h
  · rw [if_neg (not_lt.mpr h), max_eq_left h]
  · rw [if_pos h, max_eq_right h.le]

/-! ### C3: the Abort and Clear transitions of production devices -/

/-- Claim C3 counterexample: in the LoadChange state (part of the 11-value
enumeration) the Abort action does not move a production device to Aborted;
the transition chain has no LoadChange branch, so the state is unchanged. -/
theorem c3_loadchange_not_aborted :
    (prodLoadChange.takeAction .Abort).current_state = EFLEXAgentState.LoadChange ∧
    EFLEXAgentState.LoadChange ≠ EFLEXAgentState.Aborted := by decide

/-- Claim C3 (amended): for every production-device state other than Aborted
and LoadChange, Abort moves the device to Aborted with reward exactly -0.1;
from Aborted, Clear moves it to Stopped with reward 1.0 and every other action
leaves it Aborted; the LoadChange state has no transitions at all, every
action leaves the agent unchanged. -/
theorem c3_abort_clear_amended (a : EFlexAgent) (act : EFLEXAgentTransition) :
    (a.current_state ≠ EFLEXAgentState.Aborted → a.current_state ≠ EFLEXAgentState.LoadChange →
      (a.takeAction .Abort).current_state = EFLEXAgentState.Aborted ∧
      (a.takeAction .Abort).current_reward = -(1/10)) ∧
    (a.current_state = EFLEXAgentState.Aborted →
      ((a.takeAction .Clear).current_state = EFLEXAgentState.Stopped ∧
        (a.takeAction .Clear).current_reward = 1) ∧
      (act ≠ .Clear → (a.takeAction act).current_state = EFLEXAgentState.Aborted)) ∧
    (a.current_state = EFLEXAgentState.LoadChange → a.takeAction act = a) := by
  refine ⟨fun h1 h2 => ?_, fun h => ⟨?_, fun hact => ?_⟩, fun h => ?_⟩
  · cases hs : a.current_state
    case Aborted => exact absurd hs h1
    case LoadChange => exact absurd hs h2
    all_goals simp [EFlexAgent.takeAction, hs]
  · simp [EFlexAgent.takeAction, h]
  · simp [EFlexAgent.takeAction, h, hact]
  · simp [EFlexAgent.takeAction, h]

/-- Witness for C3 at concrete devices: an Execute device aborts with -0.1, an
Aborted device clears to Stopped with 1.0 and ignores SC, and a LoadChange
device is inert. -/
theorem c3_abort_clear_amended_witness :
    ((prodExecute30.takeAction .Abort).current_state = EFLEXAgentState.Aborted ∧
      (prodExecute30.takeAction .Abort).current_reward = -(1/10)) ∧
    (((prodAborted.takeAction .Clear).current_state = EFLEXAgentState.Stopped ∧
       (prodAborted.takeAction .Clear).current_reward = 1) ∧
      (prodAborted.takeAction .SC).current_state = EFLEXAgentState.Aborted) ∧
    prodLoadChange.takeAction .SC = prodLoadChange :=
  ⟨(c3_abort_clear_amended prodExecute30 .SC).1 (by decide) (by decide),
   ⟨((c3_abort_clear_amended prodAborted .SC).2.1 rfl).1,
    ((c3_abort_clear_amended prodAborted .SC).2.1 rfl).2 (by decide)⟩,
   (c3_abort_clear_amended prodLoadChange .SC).2.2 rfl⟩

/-! ### C5: the storage charge run -/

/-- Claim C5 counterexample: the first Charge action from Stopped returns the
fixed switch reward 0.1, not the claimed quadratic value 0.375, and leaves the
charging level at 0, not the claimed 25. -/
theorem c5_first_charge_counterexample :
    (storageFresh.step .Charge).2.2.1 = 1/10 ∧ ((1 : ℚ)/10 ≠ 3/8) ∧
    storageCharge1.charging_level = 0 ∧ ((0 : ℚ) ≠ 25) := by decide

/-- Claim C5 (amended): from a fresh storage device with p_min 0, p_max 100,
p_slope 25, four consecutive Charge actions yield rewards 0.1, 0, 0.21875 and
0.375 and charging levels 0, 25, 50 and 75 after each step. The switch from
Stopped into Charging earns the fixed reward 0.1; the quadratic reward applies
only when the pre-transition state is Charging or Discharging and is evaluated
at the pre-increment charging level, and the level increments only on ticks
whose pre-transition state is Charging. -/
theorem c5_charge_run_amended :
    (storageFresh.step .Charge).2.2.1 = 1/10 ∧
    storageCharge1.current_state = EFLEXEnergyStorageAgentState.Charging ∧
    storageCharge1.charging_level = 0 ∧
    (storageCharge1.step .Charge).2.2.1 = 0 ∧
    storageCharge2.current_state = EFLEXEnergyStorageAgentState.Charging ∧
    storageCharge2.charging_level = 25 ∧
    (storageCharge2.step .Charge).2.2.1 = 7/32 ∧
    storageCharge3.charging_level = 50 ∧
    (storageCharge3.step .Charge).2.2.1 = 3/8 ∧
    storageCharge4.charging_level = 75 := by decide

/-! ### C6: reset behaviour of the device kinds -/

/-- Claim C6 counterexample: a storage device charged to level 25 keeps
charging level 25 across reset, while a freshly constructed device has 0. -/
theorem c6_storage_reset_counterexample :
    storageCharge2.reset.charging_level = 25 ∧ ((25 : ℚ) ≠ 0) ∧
    storageFresh.charging_level = 0 := by decide

/-- Claim C6 (amended): reset restores current_state, current_reward,
currentStep and startStep for every device kind, and production_count for
production devices; but the storage charging_level and the generator and grid
last_power are not reset and persist across reset. -/
theorem c6_reset_amended (a : EFlexAgent) (s : EFlexEnergyStorageAgent)
    (gn : EFLEXEnergyGeneratorAgent) (gr : EFLEXEnergyMainGridAgent) :
    (a.reset.current_state = EFLEXAgentState.Stopped ∧ a.reset.current_reward = 0 ∧
      a.reset.currentStep = 0 ∧ a.reset.startStep = 0 ∧ a.reset.production_count = 0) ∧
    (s.reset.current_state = EFLEXEnergyStorageAgentState.Stopped ∧ s.reset.current_reward = 0 ∧
      s.reset.currentStep = 0 ∧ s.reset.startStep = 0 ∧
      s.reset.charging_level = s.charging_level) ∧
    (gn.reset.current_state = EFLEXEnergyGeneratorAgentState.Stopped ∧
      gn.reset.current_reward = 0 ∧ gn.reset.currentStep = 0 ∧ gn.reset.startStep = 0 ∧
      gn.reset.last_power = gn.last_power) ∧
    (gr.reset.current_state = EFLEXEnergyMainGridAgentState.Stopped ∧
      gr.reset.current_reward = 0 ∧ gr.reset.currentStep = 0 ∧ gr.reset.startStep = 0 ∧
      gr.reset.last_power = gr.last_power) :=
  ⟨⟨rfl, rfl, rfl, rfl, rfl⟩, ⟨rfl, rfl, rfl, rfl, rfl⟩, ⟨rfl, rfl, rfl, rfl, rfl⟩,
   ⟨rfl, rfl, rfl, rfl, rfl⟩⟩

/-! ### C8: the main-grid Aborted sink -/

/-- Claim C8 counterexample: a freshly aborted grid device stepped with Clear
returns the retained abort reward -0.1, not 0. -/
theorem c8_clear_reward_counterexample :
    ((gridFresh.step .Abort).1.step .Clear).2.2.1 = -(1/10) ∧ ((-(1/10) : ℚ) ≠ 0) := by decide

/-- Claim C8 (amended): once the main-grid device is Aborted, every action
leaves it Aborted with current_power 0; the returned reward is 0 for every
action except Clear, whose pass branch retains the previous reward. -/
theorem c8_grid_aborted_amended (g : EFLEXEnergyMainGridAgent)
    (act : EFLEXEnergyMainGridAgentTransition)
    (h : g.current_state = EFLEXEnergyMainGridAgentState.Aborted) :
    (g.step act).1.current_state = EFLEXEnergyMainGridAgentState.Aborted ∧
    (g.step act).1.currentPower = 0 ∧
    (g.step act).2.2.1 = if act = .Clear then g.current_reward else 0 := by
  cases act <;>
    simp [EFLEXEnergyMainGridAgent.step, EFLEXEnergyMainGridAgent.takeAction, h,
      EFLEXEnergyMainGridAgent.currentPower]

/-- Witness for C8 at the concrete aborted grid device with the Clear action. -/
theorem c8_grid_aborted_amended_witness :
    (gridAborted.step .Clear).1.current_state = EFLEXEnergyMainGridAgentState.Aborted ∧
    (gridAborted.step .Clear).1.currentPower = 0 ∧
    (gridAborted.step .Clear).2.2.1 =
      if EFLEXEnergyMainGridAgentTransition.Clear = .Clear then gridAborted.current_reward
      else 0 :=
  c8_grid_aborted_amended gridAborted .Clear rfl

/-! ### C4: the time-series generators -/

/-- A breakpoint strictly below the tick shifts the scan default to its value. -/
theorem valueAtTick_cons_of_lt {t l : ℕ} {ls : List ℕ} {w : ℚ} {ws : List ℚ} {v : ℚ}
    (h : l < t) : valueAtTick t (l :: ls) (w :: ws) v = valueAtTick t ls ws w := by
  rw [valueAtTick, valueAtTick]
  simp only [List.zip_cons_cons, List.filter_cons, decide_eq_true h, if_pos]
  cases hF : (ls.zip ws).filter (fun p => decide (p.1 < t)) with
  | nil => rfl
  | cons x xs =>
    rw [List.getLast?_cons_cons]
    cases hy : (x :: xs).getLast? with
    | none => simp at hy
    | some y => rfl

/-- On sorted breakpoints, the early-exit scan of the source computes the value
of the last breakpoint strictly below the tick. -/
theorem touScan_eq_valueAtTick (t : ℕ) :
    ∀ (steps : List ℕ) (values : List ℚ) (v : ℚ), List.Sorted (· ≤ ·) steps →
      values.length = steps.length → touScan t steps values v = valueAtTick t steps values v := by
  intro steps
  induction steps with
  | nil =>
    intro values v _ hlen
    have hv : values = [] := by simpa using hlen
    subst hv
    rfl
  | cons l ls ih =>
    intro values v hsort hlen
    cases values with
    | nil => simp at hlen
    | cons w ws =>
      obtain ⟨hfirst, hsort'⟩ := List.sorted_cons.mp hsort
      by_cases hlt : l < t
      · rw [touScan, if_pos hlt, valueAtTick_cons_of_lt hlt]
        exact ih ws w hsort' (by simpa using hlen)
      · rw [touScan, if_neg hlt, valueAtTick]
        have hnil : (ls.zip ws).filter (fun p => decide (p.1 < t)) = [] := by
          rw [List.filter_eq_nil_iff]
          intro p hp
          have hp1 : l ≤ p.1 := hfirst _ (List.of_mem_zip hp).1
          simp only [decide_eq_true_eq]
          omega
        simp [List.zip_cons_cons, List.filter_cons, hlt, hnil]

/-- The load-profile scan is the price scan on the tolerance-scaled values. -/
theorem loadScan_eq_touScan (t : ℕ) (tol : ℚ) :
    ∀ (steps : List ℕ) (values : List ℚ) (v : ℚ),
      loadScan t tol steps values v = touScan t steps (values.map fun w => w * (1 + tol)) v := by
  intro steps
  induction steps with
  | nil => intro values v; cases values <;> rfl
  | cons l ls ih =>
    intro values v
    cases values with
    | nil => rfl
    | cons w ws =>
      rw [List.map_cons, loadScan, touScan]
      by_cases hlt : t > l
      · rw [if_pos hlt, if_pos hlt, ih]
      · rw [if_neg hlt, if_neg hlt]

/-- Once every breakpoint lies strictly below the tick, the scanned value is
the last value of the list: the last value holds forever. -/
theorem valueAtTick_of_all_lt (t : ℕ) :
    ∀ (steps : List ℕ) (values : List ℚ) (v : ℚ), values.length = steps.length →
      steps ≠ [] → (∀ b ∈ steps, b < t) →
      values.getLast? = some (valueAtTick t steps values v) := by
  intro steps
  induction steps with
  | nil => intro _ _ _ hne _; exact absurd rfl hne
  | cons l ls ih =>
    intro values v hlen hne hall
    cases values with
    | nil => simp at hlen
    | cons w ws =>
      have hl : l < t := hall l (by simp)
      rw [valueAtTick_cons_of_lt hl]
      cases ls with
      | nil =>
        have hws : ws = [] := by simpa [List.length_eq_zero] using hlen
        subst hws
        rfl
      | cons l2 ls2 =>
        cases ws with
        | nil => simp at hlen
        | cons w2 ws2 =>
          rw [List.getLast?_cons_cons]
          exact ih (w2 :: ws2) w (by simpa using hlen) (by simp)
            fun b hb => hall b (by simp [hb])

/-- Claim C4 counterexample: with breakpoints [2, 5] and values [10, 20], the
tick counter reaches 3 after three calls and the code still reports 10, while
the value associated with the first breakpoint strictly greater than 3 (the
breakpoint 5) is 20. -/
theorem c4_first_greater_counterexample :
    touTwo.step.step.step.current_step = 3 ∧
    touTwo.step.step.step.current_tou_value = 10 ∧
    specFirstGreaterValue 3 [2, 5] [10, 20] 20 = 20 ∧ ((10 : ℚ) ≠ 20) := by decide

/-- Claim C4 (amended): for both generators with sorted breakpoint lists and
matching value-list lengths, step increments the tick counter by exactly one
and afterwards the current value is the value associated with the last
breakpoint strictly less than the new counter (so a breakpoint exactly equal
to the counter does not yet trigger its value), the previous value being
retained when no breakpoint lies below the counter; once every breakpoint is
strictly below the counter the last value holds forever. The load-profile
values are scaled by one plus the tolerance factor. -/
theorem c4_scan_amended (g : TOUGenerator) (p : LoadProfile)
    (hg : List.Sorted (· ≤ ·) g.steps) (hgl : g.values.length = g.steps.length)
    (hp : List.Sorted (· ≤ ·) p.steps) (hpl : p.values.length = p.steps.length) :
    g.step.current_step = g.current_step + 1 ∧
    g.step.current_tou_value =
      valueAtTick (g.current_step + 1) g.steps g.values g.current_tou_value ∧
    (g.steps ≠ [] → (∀ b ∈ g.steps, b < g.current_step + 1) →
      g.values.getLast? = some g.step.current_tou_value) ∧
    p.step.current_step = p.current_step + 1 ∧
    p.step.current_max_load =
      valueAtTick (p.current_step + 1) p.steps
        (p.values.map fun w => w * (1 + p.tolerance_factor)) p.current_max_load ∧
    (p.steps ≠ [] → (∀ b ∈ p.steps, b < p.current_step + 1) →
      (p.values.map fun w => w * (1 + p.tolerance_factor)).getLast? =
        some p.step.current_max_load) := by
  have hgv : g.step.current_tou_value =
      valueAtTick (g.current_step + 1) g.steps g.values g.current_tou_value := by
    show touScan (g.current_step + 1) g.steps g.values g.current_tou_value = _
    exact touScan_eq_valueAtTick _ _ _ _ hg hgl
  have hpv : p.step.current_max_load =
      valueAtTick (p.current_step + 1) p.steps
        (p.values.map fun w => w * (1 + p.tolerance_factor)) p.current_max_load := by
    show loadScan (p.current_step + 1) p.tolerance_factor p.steps p.values p.current_max_load = _
    rw [loadScan_eq_touScan]
    exact touScan_eq_valueAtTick _ _ _ _ hp (by simpa using hpl)
  refine ⟨rfl, hgv, fun hne hall => ?_, rfl, hpv, fun hne hall => ?_⟩
  · rw [hgv]
    exact valueAtTick_of_all_lt _ _ _ _ hgl hne hall
  · rw [hpv]
    exact valueAtTick_of_all_lt _ _ _ _ (by simpa using hpl) hne hall

/-- Witness for C4 at the concrete two-breakpoint generators. -/
theorem c4_scan_amended_witness :
    touTwo.step.current_step = touTwo.current_step + 1 ∧
    touTwo.step.current_tou_value =
      valueAtTick (touTwo.current_step + 1) touTwo.steps touTwo.values
        touTwo.current_tou_value ∧
    (touTwo.steps ≠ [] → (∀ b ∈ touTwo.steps, b < touTwo.current_step + 1) →
      touTwo.values.getLast? = some touTwo.step.current_tou_value) ∧
    loadTwo.step.current_step = loadTwo.current_step + 1 ∧
    loadTwo.step.current_max_load =
      valueAtTick (loadTwo.current_step + 1) loadTwo.steps
        (loadTwo.values.map fun w => w * (1 + loadTwo.tolerance_factor))
        loadTwo.current_max_load ∧
    (loadTwo.steps ≠ [] → (∀ b ∈ loadTwo.steps, b < loadTwo.current_step + 1) →
      (loadTwo.values.map fun w => w * (1 + loadTwo.tolerance_factor)).getLast? =
        some loadTwo.step.current_max_load) :=
  c4_scan_amended touTwo loadTwo (by decide) (by decide) (by decide) (by decide)

/-! ### C7: the observation-vector layout -/

/-- The length of an observation vector is the state count plus two. -/
theorem mkObs_length (n sv : ℕ) (pw maxP : ℚ) : (mkObs n sv pw maxP).length = n + 2 := by
  simp [mkObs]

/-- Reading an observation vector below its length yields the entry function. -/
theorem mkObs_getElem? {n sv : ℕ} {pw maxP : ℚ} {k : ℕ} (h : k < n + 2) :
    (mkObs n sv pw maxP)[k]? = some (obsEntry n sv pw maxP k) := by
  simp [mkObs, List.getElem?_map, List.getElem?_range, h]

/-- Claim C7 counterexample: the main-grid device in the Selling state (whose
ordinal 4 is the second-to-last slot of its 6-slot observation) reports 1.0 in
the second-to-last slot, not the claimed reserved 0. -/
theorem c7_selling_slot_counterexample :
    (gridSelling.getObs)[4]? = some 1 ∧ ((1 : ℚ) ≠ 0) := by decide

/-- Claim C7 (amended): for every device kind the observation vector has
length state-count + 2, carries the one-hot encoding of the current state at
the state ordinals, the power fraction in the final slot, and 0 in the
second-to-last slot — for every kind except the main grid, whose Selling
ordinal 4 is the second-to-last index, so that slot reads 1.0 exactly when the
grid is Selling. -/
theorem c7_obs_layout_amended (a : EFlexAgent) (pw : ℚ) (s : EFlexEnergyStorageAgent)
    (gn : EFLEXEnergyGeneratorAgent) (gr : EFLEXEnergyMainGridAgent) :
    ((a.getObs pw).length = 13 ∧
      (∀ st : EFLEXAgentState,
        (a.getObs pw)[st.value]? = some (if st = a.current_state then 1 else 0)) ∧
      (a.getObs pw)[11]? = some 0 ∧
      (a.getObs pw)[12]? = some (pw / a.max_allowed_power)) ∧
    (s.getObs.length = 6 ∧
      (∀ st : EFLEXEnergyStorageAgentState,
        s.getObs[st.value]? = some (if st = s.current_state then 1 else 0)) ∧
      s.getObs[4]? = some 0 ∧
      s.getObs[5]? = some (s.currentPower / s.max_allowed_power)) ∧
    (gn.getObs.length = 5 ∧
      (∀ st : EFLEXEnergyGeneratorAgentState,
        gn.getObs[st.value]? = some (if st = gn.current_state then 1 else 0)) ∧
      gn.getObs[3]? = some 0 ∧
      gn.getObs[4]? = some (gn.currentPower / gn.max_allowed_power)) ∧
    (gr.getObs.length = 6 ∧
      (∀ st : EFLEXEnergyMainGridAgentState,
        gr.getObs[st.value]? = some (if st = gr.current_state then 1 else 0)) ∧
      gr.getObs[3]? = some 0 ∧
      gr.getObs[4]? = some (if gr.current_state = .Selling then 1 else 0) ∧
      gr.getObs[5]? = some (gr.currentPower / gr.max_allowed_power)) := by
  refine ⟨⟨mkObs_length 11 _ _ _, fun st => ?_, ?_, ?_⟩,
          ⟨mkObs_length 4 _ _ _, fun st => ?_, ?_, ?_⟩,
          ⟨mkObs_length 3 _ _ _, fun st => ?_, ?_, ?_⟩,
          ⟨mkObs_length 4 _ _ _, fun st => ?_, ?_, ?_, ?_⟩⟩
  · cases st <;> cases hc : a.current_state <;>
      simp [EFlexAgent.getObs, EFLEXAgentState.value, mkObs_getElem?, obsEntry, hc]
  · cases hc : a.current_state <;>
      simp [EFlexAgent.getObs, EFLEXAgentState.value, mkObs_getElem?, obsEntry, hc]
  · simp [EFlexAgent.getObs, mkObs_getElem?, obsEntry]
  · cases st <;> cases hc : s.current_state <;>
      simp [EFlexEnergyStorageAgent.getObs, EFLEXEnergyStorageAgentState.value,
        mkObs_getElem?, obsEntry, hc]
  · cases hc : s.current_state <;>
      simp [EFlexEnergyStorageAgent.getObs, EFLEXEnergyStorageAgentState.value,
        mkObs_getElem?, obsEntry, hc]
  · simp [EFlexEnergyStorageAgent.getObs, mkObs_getElem?, obsEntry]
  · cases st <;> cases hc : gn.current_state <;>
      simp [EFLEXEnergyGeneratorAgent.getObs, EFLEXEnergyGeneratorAgentState.value,
        mkObs_getElem?, obsEntry, hc]
  · cases hc : gn.current_state <;>
      simp [EFLEXEnergyGeneratorAgent.getObs, EFLEXEnergyGeneratorAgentState.value,
        mkObs_getElem?, obsEntry, hc]
  · simp [EFLEXEnergyGeneratorAgent.getObs, mkObs_getElem?, obsEntry]
  · cases st <;> cases hc : gr.current_state <;>
      simp [EFLEXEnergyMainGridAgent.getObs, EFLEXEnergyMainGridAgentState.value,
        mkObs_getElem?, obsEntry, hc]
  · cases hc : gr.current_state <;>
      simp [EFLEXEnergyMainGridAgent.getObs, EFLEXEnergyMainGridAgentState.value,
        mkObs_getElem?, obsEntry, hc]
  · cases hc : gr.current_state <;>
      simp [EFLEXEnergyMainGridAgent.getObs, EFLEXEnergyMainGridAgentState.value,
        mkObs_getElem?, obsEntry, hc]
  · simp [EFLEXEnergyMainGridAgent.getObs, mkObs_getElem?, obsEntry]

/-! ### C1: the budget-violation penalty -/

/-- Claim C1 (confirmed): whenever the aggregated system power of a
coordinator step times the price of that tick exceeds the energy-cost budget,
the returned reward vector is the pre-budget vector (after the shared-reward
broadcast, in either mode) with 0.5 subtracted from every entry, and the
returned episode done flag is true regardless of the per-device done flags. -/
theorem c1_budget_violation_penalty (e : Env) (acts : List ℕ)
    (hs : (phase1 0 e.agents acts).isSome = true)
    (hover : phase1SysPower e acts * e.tou_generator.step.current_tou_value >
      e.energy_cost_budget) :
    ((e.step acts).map fun out => out.2.2.1) =
      ((phase1 0 e.agents acts).map fun m => (sharedStage e m).map fun r => r - 1/2) ∧
    ((e.step acts).map fun out => out.2.2.2) = some true := by
  obtain ⟨m, hm⟩ := Option.isSome_iff_exists.mp hs
  have hov : m.powers.sum * e.tou_generator.step.current_tou_value > e.energy_cost_budget := by
    unfold phase1SysPower at hover
    rw [hm] at hover
    simpa using hover
  constructor <;> simp [EFlexMultiAgentCooperationClsV4.step, hm, hov]

/-- Witness for C1 at the spec budget test: two constant devices drawing 30
each against budget 50 at price 1. -/
theorem c1_budget_violation_penalty_witness :
    ((envBudget.step [5, 5]).map fun out => out.2.2.1) =
      ((phase1 0 envBudget.agents [5, 5]).map fun m =>
        (sharedStage envBudget m).map fun r => r - 1/2) ∧
    ((envBudget.step [5, 5]).map fun out => out.2.2.2) = some true :=
  c1_budget_violation_penalty envBudget [5, 5] (by decide) (by decide)

/-! ### C2: the shared-reward broadcast -/

/-- Claim C2 (confirmed): under shared_reward the pre-budget reward vector has
one slot per registered device and every slot holds the arithmetic sum of the
individual rewards of the tick (the sum, not the mean); the mean of the final
reward vector is what the step stores in the global_reward diagnostic. -/
theorem c2_shared_reward_is_sum (e : Env) (acts : List ℕ)
    (hshared : e.shared_reward = true) :
    (∀ m ∈ phase1 0 e.agents acts,
      (sharedStage e m).length = e.agents.length ∧
      ∀ r ∈ sharedStage e m, r = m.rewards.sum) ∧
    ((e.step acts).map fun out => out.1.global_reward) =
      ((e.step acts).map fun out => out.2.2.1.sum / (out.2.2.1.length : ℚ)) := by
  constructor
  · intro m _
    constructor
    · simp [sharedStage, hshared]
    · intro r hr
      rw [sharedStage, hshared] at hr
      simp only [if_pos rfl] at hr
      exact List.eq_of_mem_replicate hr
  · cases hp : phase1 0 e.agents acts with
    | none => simp [EFlexMultiAgentCooperationClsV4.step, hp]
    | some m => simp [EFlexMultiAgentCooperationClsV4.step, hp]

/-- Witness for C2 at a concrete shared-reward coordinator. -/
theorem c2_shared_reward_is_sum_witness :
    (∀ m ∈ phase1 0 envShared.agents [5, 5],
      (sharedStage envShared m).length = envShared.agents.length ∧
      ∀ r ∈ sharedStage envShared m, r = m.rewards.sum) ∧
    ((envShared.step [5, 5]).map fun out => out.1.global_reward) =
      ((envShared.step [5, 5]).map fun out => out.2.2.1.sum / (out.2.2.1.length : ℚ)) :=
  c2_shared_reward_is_sum envShared [5, 5] rfl

/-! ### C9: the winner list -/

/-- The winner flag stored by the loop body agrees with the winner predicate
on the stored post-step device. -/
theorem advance_winner_eq {d : Device} {act : ℕ} {o : AgentOut}
    (h : d.advance act = some o) : o.winner = o.dev.isWinner := by
  cases d <;>
    · simp only [Device.advance] at h
      obtain ⟨t, _, ht⟩ := Option.map_eq_some'.mp h
      subst ht
      rfl

/-- The winner-list appends of the per-agent loop are exactly the indices of
the post-step production devices whose production count reached the cap. -/
theorem phase1_winners {i : ℕ} {ds : List Device} {acts : List ℕ} {m : MidRes}
    (h : phase1 i ds acts = some m) : m.winners = tickWinners i m.devs := by
  induction ds generalizing i acts m with
  | nil =>
    cases acts <;>
      · simp only [phase1, Option.some.injEq] at h
        subst h
        rfl
  | cons d ds ih =>
    cases acts with
    | nil => simp [phase1] at h
    | cons act acts =>
      simp only [phase1] at h
      cases hadv : d.advance act with
      | none => rw [hadv] at h; simp at h
      | some o =>
        rw [hadv] at h
        cases hrec : phase1 (i + 1) ds acts with
        | none => rw [hrec] at h; simp at h
        | some m' =>
          rw [hrec] at h
          obtain rfl := Option.some.inj h
          show (if o.winner then [i] else []) ++ m'.winners = tickWinners i (o.dev :: m'.devs)
          rw [tickWinners, ih hrec, advance_winner_eq hadv]

/-- Claim C9 counterexample: driving the one-device coordinator through twenty
full production cycles and one further tick leaves the winner list [0, 0]: the
winning index is appended again on the tick after the cap is reached, so the
addition is not idempotent and the list is not duplicate-free. -/
theorem c9_duplicate_winner_counterexample :
    (runEnv envWinners winnersScript).map (fun e => e.current_winner) = some [0, 0] ∧
    ¬ ([0, 0] : List ℕ).Nodup := by
  exact ⟨by decide, by decide⟩

/-- Claim C9 (amended): on every successful coordinator step the winner list
grows by one occurrence of the index of every production device whose
production count is at or above the cap after its step this tick — an append,
not an idempotent set insertion, so an index repeats on every further tick
while its count stays at the cap. -/
theorem c9_winners_append_amended (e : Env) (acts : List ℕ)
    (hs : (e.step acts).isSome = true) :
    ((e.step acts).map fun out => out.1.current_winner) =
      ((e.step acts).map fun out => e.current_winner ++ tickWinners 0 out.1.agents) := by
  cases hp : phase1 0 e.agents acts with
  | none => rw [EFlexMultiAgentCooperationClsV4.step, hp] at hs; simp at hs
  | some m =>
    simp only [EFlexMultiAgentCooperationClsV4.step, hp, Option.map_some']
    rw [phase1_winners hp]

/-- Witness for C9 at a one-device coordinator whose production device already
carries production count 20. -/
theorem c9_winners_append_amended_witness :
    ((envCapped.step [0]).map fun out => out.1.current_winner) =
      ((envCapped.step [0]).map fun out =>
        envCapped.current_winner ++ tickWinners 0 out.1.agents) :=
  c9_winners_append_amended envCapped [0] (by decide)

/-! ### C10: the storage charging-level update -/

/-- Claim C10 (confirmed): on every storage step whose pre-transition state is
Charging the charging level is incremented by p_slope and clamped at p_max,
and symmetrically for Discharging with the clamp at p_min, regardless of the
action taken; any other pre-transition state leaves the level unchanged. -/
theorem c10_charging_level_update (s : EFlexEnergyStorageAgent)
    (act : EFLEXEnergyStorageAgentTransition) :
    (s.step act).1.charging_level =
      if s.current_state = EFLEXEnergyStorageAgentState.Charging
        then min (s.charging_level + s.p_slope) s.p_max
      else if s.current_state = EFLEXEnergyStorageAgentState.Discharging
        then max (s.charging_level - s.p_slope) s.p_min
      else s.charging_level := by
  cases hs : s.current_state <;> cases act <;>
    simp [EFlexEnergyStorageAgent.step, EFlexEnergyStorageAgent.takeAction, hs,
      clampHigh_eq_min, clampLow_eq_max]
